import Mathlib

/-!
Verification of the TradeBridge core pipeline.

This file gives a shallow embedding, over exact rational arithmetic, of the
three core components of the TradeBridge repository:

* `core/trade_parser.py` — enrichment: signal loading, validation, lot sizing,
  dedup-merge persistence and consumed-marking;
* `core/tpsl_manager.py` — the position risk manager: fixed-pips and
  percentage-balance protection, trailing overlay, rounding and no-op
  suppression;
* `core/trade_executor.py` — execution: reversal handling, netting, filling
  modes and the enriched-row update.

Venue and filesystem effects (MetaTrader 5 calls, CSV I/O) are modelled by
explicit environment records whose `Option` fields stand for calls that can
fail or raise; Python floats are idealised as rationals with the Python
round-half-to-even rounding made explicit.
-/

namespace TradeBridge

/-- Round-half-to-even on rationals: the tie-breaking rule of Python `round`. -/
def rndHalfEven (q : ℚ) : ℤ :=
  let f := ⌊q⌋
  if q < (f : ℚ) + 1/2 then f
  else if (f : ℚ) + 1/2 < q then f + 1
  else if f % 2 = 0 then f else f + 1

/-- Python `round(x, n)` on rationals. -/
def roundTo (n : ℕ) (x : ℚ) : ℚ := (rndHalfEven (x * 10 ^ n) : ℚ) / 10 ^ n

/-- Python `round(x, 2)`, used throughout the sizing code. -/
def round2 : ℚ → ℚ := roundTo 2

/-- Python `math.isclose a b abs_tol` with the default `rel_tol = 1e-9`. -/
def isclose (a b absTol : ℚ) : Bool :=
  decide (|a - b| ≤ max ((1 / 1000000000) * max |a| |b|) absTol)

/-- ASCII upper-casing of one character (Python `str.upper` on ASCII data). -/
def upChar (c : Char) : Char :=
  if 97 ≤ c.toNat ∧ c.toNat ≤ 122 then Char.ofNat (c.toNat - 32) else c

/-- Python upper-casing of a string (symbols and actions in this code base are ASCII). -/
def upStr (s : String) : String := ⟨s.data.map upChar⟩

/-- ASCII lower-casing of one character (Python `str.lower` on ASCII data). -/
def lowChar (c : Char) : Char :=
  if 65 ≤ c.toNat ∧ c.toNat ≤ 90 then Char.ofNat (c.toNat + 32) else c

/-- Python lower-casing of a string. -/
def lowStr (s : String) : String := ⟨s.data.map lowChar⟩

/-- Python substring test: does `s` start with `p`. -/
def strStarts (s p : String) : Bool := s.data.take p.data.length == p.data

/-- Metal instruments: the symbol starts with XAU or XAG. -/
def isMetalSym (s : String) : Bool := strStarts s "XAU" || strStarts s "XAG"

/-- Crypto instruments: the symbol starts with BTC or ETH. -/
def isCryptoSym (s : String) : Bool := strStarts s "BTC" || strStarts s "ETH"

/-- Model of `strategy_cfg["lot_size"]["type"]`. -/
inductive LotMode
  | fixed
  | percent
deriving DecidableEq, Repr

/-- Model of `strategy_cfg["lot_size"]`. -/
structure LotCfg where
  mode : LotMode
  value : ℚ
deriving DecidableEq, Repr

/-- The fields of `mt5.symbol_info_tick` read by `calculate_lotsize`. -/
structure STick where
  ask : ℚ
  last : ℚ
deriving DecidableEq, Repr

/-- Venue state observed by one `calculate_lotsize` call.  `balance = none`
models `get_balance` raising (no account info / connection fault);
`symbolOk = false` models `mt5.symbol_select` failing; `tick = none` models
missing tick data (attribute access on `None` raises). -/
structure SizeEnv where
  balance : Option ℚ
  symbolOk : Bool
  tick : Option STick
deriving DecidableEq, Repr

/-- Model of `LEVERAGE = 500` in `trade_parser.py`. -/
def LEVERAGE : ℚ := 500

/-- Minimum lot: 0.00001 for crypto symbols, 0.01 otherwise. -/
def min_lot (symbol : String) : ℚ :=
  if isCryptoSym symbol then 1/100000 else 1/100

/-- The reference price picked per instrument class (ask for metals and forex; for
crypto the last price when positive, else ask). -/
def price_of (symbol : String) (t : STick) : ℚ :=
  if isMetalSym symbol then t.ask
  else if isCryptoSym symbol then (if 0 < t.last then t.last else t.ask)
  else t.ask

/-- The contract size per instrument class (metals 100, crypto 1, forex 100000). -/
def contract_of (symbol : String) : ℚ :=
  if isMetalSym symbol then 100
  else if isCryptoSym symbol then 1
  else 100000

/-- Model of `calculate_lotsize` of `trade_parser.py`.  Every fault path of the Python
`try` block (balance unavailable, symbol not selectable, no tick, division by
zero) returns the `except` fallback `0.01`. -/
def calculate_lotsize (cfg : LotCfg) (env : SizeEnv) (symbol0 : String) : ℚ :=
  match cfg.mode with
  | .fixed => round2 cfg.value
  | .percent =>
    match env.balance with
    | none => 1/100
    | some balance =>
      let symbol := upStr symbol0
      if ¬ env.symbolOk then 1/100
      else
        match env.tick with
        | none => 1/100
        | some tick =>
          let price := price_of symbol tick
          let contract_size := contract_of symbol
          let risk_pct := cfg.value / 100
          let risk_amount := balance * LEVERAGE * risk_pct
          if price * contract_size = 0 then 1/100
          else
            let lot_size := risk_amount / (price * contract_size)
            max (min (round2 lot_size) 100) (min_lot symbol)

/-- The concrete sizing environment of the worked example of the spec:
balance 10000, reference price 2000 on a metal symbol (contract size 100). -/
def sizingExampleEnv : SizeEnv :=
  { balance := some 10000, symbolOk := true, tick := some { ask := 2000, last := 0 } }

/-- Model of `mt5.ORDER_TYPE_BUY` / `mt5.ORDER_TYPE_SELL`. -/
inductive PDir
  | buy
  | sell
deriving DecidableEq, Repr

/-- Model of `tpsl_cfg["trailing"]`. -/
structure Trailing where
  activate_at : ℚ
  lock_pips : ℚ
deriving DecidableEq, Repr

/-- Model of `strategy_cfg["tpsl_logic"]`: the mode string plus all keys any branch may
read.  `trailing = none` models the `"trailing" in tpsl_cfg` membership test
failing. -/
structure TpslCfg where
  mode : String
  sl_pips : ℚ
  tp_pips : ℚ
  trailing : Option Trailing
  sl_percent : ℚ
  tp_percent : ℚ
deriving DecidableEq, Repr

/-- The fields of an `mt5` position read by `manage_position`. `time` is the
open time in epoch seconds. -/
structure MPos where
  ticket : ℕ
  symbol : String
  ptype : PDir
  price_open : ℚ
  sl : ℚ
  tp : ℚ
  volume : ℚ
  time : ℚ
deriving DecidableEq, Repr

/-- Venue state observed by one `manage_position` call.  `tick = none`: no
tick data; `symbolOk`: `mt5.symbol_select` inside `get_pip_value`;
`balance = none`: `mt5.account_info()` returned nothing; `tick_value`:
`trade_tick_value_profit`; `now`: `datetime.now()` in epoch seconds. -/
structure MEnv where
  now : ℚ
  tick : Option (ℚ × ℚ)
  symbolOk : Bool
  point : ℚ
  digits : ℕ
  balance : Option ℚ
  tick_value : ℚ
deriving DecidableEq, Repr

/-- Model of `get_pip_value` of `tpsl_manager.py`: `point × 1` for metals and crypto,
`point × 10` for forex; `none` when the symbol cannot be selected. -/
def get_pip_value (symbolOk : Bool) (symbol : String) (point : ℚ) : Option ℚ :=
  if ¬ symbolOk then none
  else if isMetalSym symbol then some (point * 1)
  else if isCryptoSym symbol then some (point * 1)
  else some (point * 10)

/-- The stop-loss computed by the fixed-pips branch of `manage_position`,
including the trailing overlay: for a buy, `entry − sl_pips·pip`, raised to
`entry + lock_pips·pip` whenever `profit_pips ≥ activate_at` (symmetrically
for a sell). -/
def fixedPipsSL (cfg : TpslCfg) (dir : PDir) (entry current_price pip_value : ℚ) : ℚ :=
  match dir with
  | .buy =>
    let sl := entry - cfg.sl_pips * pip_value
    match cfg.trailing with
    | none => sl
    | some tr =>
      if tr.activate_at ≤ (current_price - entry) / pip_value
      then max sl (entry + tr.lock_pips * pip_value)
      else sl
  | .sell =>
    let sl := entry + cfg.sl_pips * pip_value
    match cfg.trailing with
    | none => sl
    | some tr =>
      if tr.activate_at ≤ (entry - current_price) / pip_value
      then min sl (entry - tr.lock_pips * pip_value)
      else sl

/-- The take-profit computed by the fixed-pips branch of `manage_position`. -/
def fixedPipsTP (cfg : TpslCfg) (dir : PDir) (entry pip_value : ℚ) : ℚ :=
  match dir with
  | .buy => entry + cfg.tp_pips * pip_value
  | .sell => entry - cfg.tp_pips * pip_value

/-- The outcome of one `manage_position` call.  The Python function returns a
bool; what matters for verification is whether a modification request was
issued and with which levels, so the model keeps the distinct exit paths. -/
inductive ManageResult
  | skippedNew
  | noTickData
  | noPipValue
  | noAccount
  | zeroTickValue
  | zeroVolume
  | noop
  | submit (sl tp : ℚ)
deriving DecidableEq, Repr

/-- The tail of `manage_position`: round both targets to the digits of the symbol
and suppress the submission when both levels are within `math.isclose`
tolerance (absolute tolerance 5 ticks) of the current levels of the position. -/
def finishTargets (pos : MPos) (point : ℚ) (digits : ℕ) (sl_price0 tp_price0 : ℚ) :
    ManageResult :=
  let sl_price := roundTo digits sl_price0
  let tp_price := roundTo digits tp_price0
  if isclose sl_price pos.sl (point * 5) && isclose tp_price pos.tp (point * 5)
  then .noop
  else .submit sl_price tp_price

/-- Model of `manage_position` of `tpsl_manager.py`.  The `zeroVolume` exit models the
`ZeroDivisionError` (caught by the outer `except`) when
`tick_value * position.volume = 0` after the explicit `tick_value == 0` check. -/
def manage_position (cfg : TpslCfg) (pos : MPos) (env : MEnv) : ManageResult :=
  let position_age := (env.now - pos.time) / 60
  if position_age < 1 then .skippedNew
  else
    match env.tick with
    | none => .noTickData
    | some tick =>
      let current_price := match pos.ptype with | .buy => tick.1 | .sell => tick.2
      match get_pip_value env.symbolOk pos.symbol env.point with
      | none => .noPipValue
      | some pip_value =>
        if pip_value = 0 then .noPipValue
        else
          let entry_price := pos.price_open
          if cfg.mode = "fixed_pips" then
            finishTargets pos env.point env.digits
              (fixedPipsSL cfg pos.ptype entry_price current_price pip_value)
              (fixedPipsTP cfg pos.ptype entry_price pip_value)
          else if cfg.mode = "percentage_balance" then
            match env.balance with
            | none => .noAccount
            | some balance =>
              if env.tick_value = 0 then .zeroTickValue
              else
                let risk_amount := balance * (cfg.sl_percent / 100)
                let reward_amount := balance * (cfg.tp_percent / 100)
                let dollar_per_point := env.tick_value * pos.volume
                if dollar_per_point = 0 then .zeroVolume
                else
                  let sl_distance := risk_amount / dollar_per_point
                  let tp_distance := reward_amount / dollar_per_point
                  match pos.ptype with
                  | .buy =>
                    finishTargets pos env.point env.digits
                      (entry_price - sl_distance * env.point)
                      (entry_price + tp_distance * env.point)
                  | .sell =>
                    finishTargets pos env.point env.digits
                      (entry_price + sl_distance * env.point)
                      (entry_price - tp_distance * env.point)
          else
            finishTargets pos env.point env.digits pos.sl pos.tp

/-- A position whose protective levels the venue has just accepted: `order_send`
with the SLTP action replaces the stored `sl` and `tp` of the position. -/
def afterAccept (pos : MPos) (sl tp : ℚ) : MPos := { pos with sl := sl, tp := tp }

/-- A fixed-pips policy with a trailing overlay: sl 20 pips, tp 40 pips,
trailing activates at 10 pips of profit and locks 5 pips. -/
def trailingCfg : TpslCfg :=
  { mode := "fixed_pips", sl_pips := 20, tp_pips := 40,
    trailing := some { activate_at := 10, lock_pips := 5 },
    sl_percent := 0, tp_percent := 0 }

/-- A long XAUUSD position opened at 2000 with no protective levels yet. -/
def xauPos : MPos :=
  { ticket := 1, symbol := "XAUUSD", ptype := .buy, price_open := 2000,
    sl := 0, tp := 0, volume := 1, time := 0 }

/-- First risk-manager pass over `xauPos`: bid 2000.15 (15 pips of profit). -/
def xauEnv1 : MEnv :=
  { now := 600, tick := some (40003/20, 40007/20), symbolOk := true,
    point := 1/100, digits := 2, balance := some 0, tick_value := 0 }

/-- Second pass 20 seconds later: bid retraced to 2000.05 (5 pips of profit). -/
def xauEnv2 : MEnv :=
  { now := 620, tick := some (40001/20, 40005/20), symbolOk := true,
    point := 1/100, digits := 2, balance := some 0, tick_value := 0 }

/-- A long EURUSD position opened at 1 with no protective levels yet. -/
def eurPos : MPos :=
  { ticket := 2, symbol := "EURUSD", ptype := .buy, price_open := 1,
    sl := 0, tp := 0, volume := 1, time := 0 }

/-- First pass over `eurPos`: bid 1.0015 (15 pips of profit, pip = 0.0001). -/
def eurEnv1 : MEnv :=
  { now := 600, tick := some (2003/2000, 2007/2000), symbolOk := true,
    point := 1/100000, digits := 5, balance := some 0, tick_value := 0 }

/-- Second pass 20 seconds later: bid retraced to 1.0005 (5 pips of profit). -/
def eurEnv2 : MEnv :=
  { now := 620, tick := some (2001/2000, 2005/2000), symbolOk := true,
    point := 1/100000, digits := 5, balance := some 0, tick_value := 0 }

/-- A percentage-balance policy: risk 1% of balance, reward 2%. -/
def pctCfg : TpslCfg :=
  { mode := "percentage_balance", sl_pips := 0, tp_pips := 0, trailing := none,
    sl_percent := 1, tp_percent := 2 }

/-- A long EURUSD position for the percentage-balance scenario. -/
def pctPos : MPos :=
  { ticket := 3, symbol := "EURUSD", ptype := .buy, price_open := 1,
    sl := 0, tp := 0, volume := 1, time := 0 }

/-- Environment for the percentage-balance scenario: balance 10000, tick value
1, point 0.0001, bid 1.018 — 90% of the way to the computed TP of 1.02. -/
def pctEnv : MEnv :=
  { now := 600, tick := some (509/500, 51/50), symbolOk := true,
    point := 1/10000, digits := 4, balance := some 10000, tick_value := 1 }

/-- Model of `MAGIC_NUMBER = 123456`. -/
def MAGIC_NUMBER : ℕ := 123456

/-- Model of `mt5.TRADE_RETCODE_DONE`. -/
def TRADE_RETCODE_DONE : ℕ := 10009

/-- An open venue position as seen by the executor, together with the venue
responses for closing it: `tick = none` models `symbol_info_tick` returning
nothing (the loop then `continue`s without recording a result);
`closeRet = none` models `order_send` returning `None`, whose attribute access
raises and aborts `close_positions` with `False`; `closeRet = some rc` is the
returned retcode. -/
structure VPos where
  ticket : ℕ
  ptype : PDir
  volume : ℚ
  magic : ℕ
  tick : Option (ℚ × ℚ)
  closeRet : Option ℕ
deriving DecidableEq, Repr

/-- Model of `strategy_cfg["reverse_handling"]`. -/
structure ReverseCfg where
  mode : String
  magic_restriction : Bool
deriving DecidableEq, Repr

/-- Model of `get_open_positions`: the open-position list of the venue for the
symbol, filtered by the magic number of this system when `magic_restriction` is set. -/
def get_open_positions (positions : List VPos) (magic_restriction : Bool) : List VPos :=
  if magic_restriction then positions.filter (fun p => p.magic == MAGIC_NUMBER)
  else positions

/-- The opposite-direction filter of `execute_trade`. -/
def opposite_of (action : String) (ps : List VPos) : List VPos :=
  ps.filter (fun p =>
    (lowStr action == "buy" && p.ptype == PDir.sell)
      || (lowStr action == "sell" && p.ptype == PDir.buy))

/-- The close loop of `close_positions`: positions with no tick data are
skipped without recording a result; an `order_send` returning `None` raises
(modelled as `none` for the whole list); otherwise the retcode is recorded. -/
def close_results : List VPos → Option (List ℕ)
  | [] => some []
  | p :: ps =>
    match p.tick with
    | none => close_results ps
    | some _ =>
      match p.closeRet with
      | none => none
      | some rc => (close_results ps).map (fun rs => rc :: rs)

/-- Model of `close_positions` of `trade_executor.py`: vacuously `True` on an empty
list, `False` when the terminal path is invalid or the connection fails or the
loop raised, else `all(r.retcode == TRADE_RETCODE_DONE for r in results)`. -/
def close_positions (terminalPathOk initOk : Bool) (positions : List VPos) : Bool :=
  if positions.isEmpty then true
  else if ¬ terminalPathOk then false
  else if ¬ initOk then false
  else
    match close_results positions with
    | none => false
    | some rs => rs.all (fun r => r == TRADE_RETCODE_DONE)

/-- Venue state observed by one `execute_trade` call.  `fok`, `ioc`, `ret` are
the `order_send` responses per filling mode as `(retcode, order, price)`;
`none` models an exception (or a `None` result), which the per-mode `try`
catches before moving to the next mode. -/
structure ExecEnv where
  configOk : Bool
  terminalPathOk : Bool
  initOk : Bool
  symbolOk : Bool
  positions : List VPos
  tick : Option (ℚ × ℚ)
  fok : Option (ℕ × ℕ × ℚ)
  ioc : Option (ℕ × ℕ × ℚ)
  ret : Option (ℕ × ℕ × ℚ)
deriving DecidableEq, Repr

/-- The exit paths of `execute_trade`.  The Python function returns `None`
(all the failure exits), the synthetic netting `TradeResult`, or the venue's
`OrderSendResult`; the model keeps the exits distinct so that theorems can
tell an abort before submission from a rejected submission. -/
inductive ExecOutcome
  | noConfig
  | noTerminal
  | initFail
  | symbolFail
  | closeFailed
  | nettingDone
  | noTick
  | opened (order : ℕ) (price : ℚ)
  | allModesFailed
deriving DecidableEq, Repr

/-- The filling-mode loop: FOK, then IOC, then RETURN; the first mode whose
result carries `TRADE_RETCODE_DONE` wins. -/
def try_fill : List (Option (ℕ × ℕ × ℚ)) → ExecOutcome
  | [] => .allModesFailed
  | none :: rest => try_fill rest
  | some (rc, order, price) :: rest =>
    if rc = TRADE_RETCODE_DONE then .opened order price else try_fill rest

/-- The new-order tail of `execute_trade`: tick check then the filling loop. -/
def new_leg (env : ExecEnv) : ExecOutcome :=
  match env.tick with
  | none => .noTick
  | some _ => try_fill [env.fok, env.ioc, env.ret]

/-- Model of `execute_trade` of `trade_executor.py`. -/
def execute_trade (env : ExecEnv) (rcfg : ReverseCfg) (action : String) : ExecOutcome :=
  if ¬ env.configOk then .noConfig
  else if ¬ env.terminalPathOk then .noTerminal
  else if ¬ env.initOk then .initFail
  else if ¬ env.symbolOk then .symbolFail
  else if rcfg.mode ≠ "off" then
    let opposite := opposite_of action (get_open_positions env.positions rcfg.magic_restriction)
    if ¬ opposite.isEmpty then
      if ¬ close_positions env.terminalPathOk env.initOk opposite then .closeFailed
      else if rcfg.mode = "netting" then .nettingDone
      else new_leg env
    else new_leg env
  else new_leg env

/-- The Python result object as read by `process_signals`: `TradeResult` (the
netting sentinel) carries `order = 0` and no usable price; an accepted
`OrderSendResult` carries the venue ticket and fill price. -/
structure PyResult where
  order : ℕ
  price : ℚ
deriving DecidableEq, Repr

/-- How `process_signals` sees the return value of `execute_trade`: `none` for
the `None` exits, a `PyResult` otherwise; the netting `TradeResult` has
`order = 0` (its `price` is never read because of the `order != 0` guard). -/
def resultOf : ExecOutcome → Option PyResult
  | .nettingDone => some { order := 0, price := 0 }
  | .opened order price => some { order := order, price := price }
  | _ => none

/-- One row of the per-day alert store
(`timestamp, symbol, action, timeframe, strategy, executed`).
`timestamp = none` models `pd.to_datetime(..., errors='coerce')` producing
`NaT` for an unparseable value; otherwise the parsed time in epoch seconds. -/
structure ARow where
  timestamp : Option ℚ
  symbol : String
  action : String
  timeframe : String
  strategy : String
  executed : String
deriving DecidableEq, Repr

/-- One row of the enriched-signal store, as written by `process_signals` and
later mutated by the executor.  Empty CSV cells are `none`. -/
structure ERow where
  timestamp : ℚ
  symbol : String
  action : String
  timeframe : String
  strategy : String
  executed : String
  lot_size : Option ℚ
  tpsl_mode : String
  trade_done : String
  tpsl_done : String
  ticket : Option ℕ
  execution_price : Option ℚ
  executed_at : Option ℚ
  processed_at : ℚ
deriving DecidableEq, Repr

/-- One strategy entry in the strategies table of the config, with the fields the
enrichment pass reads. -/
structure StrategyCfg where
  enabled : Bool
  allowed_actions : List String
  allowed_symbols : List String
  lot_size : LotCfg
  tpsl_mode : String
deriving Repr

/-- Model of `config["strategies"]` as an association list. -/
structure Config where
  strategies : List (String × StrategyCfg)

/-- Model of `strategy in config["strategies"]` plus the lookup. -/
def findStrategy (c : Config) (name : String) : Option StrategyCfg :=
  c.strategies.lookup name

/-- Model of `load_signals`: keep the rows whose timestamp parsed and whose consumed
flag is the literal `"no"`. -/
def load_signals (alerts : List ARow) : List ARow :=
  alerts.filter (fun r => r.timestamp.isSome && r.executed == "no")

/-- Model of `is_recent`: within the 1-minute freshness window. -/
def is_recent (now ts : ℚ) : Bool := decide (now - ts ≤ 60)

/-- Model of `validate_signal` of `trade_parser.py`: the textual status sentinel. -/
def validate_signal (sig : ARow) (cfg : StrategyCfg) : String :=
  if ¬ cfg.enabled then "yes (strg:off)"
  else
    let action := lowStr sig.action
    let symbol := upStr sig.symbol
    if ¬ (cfg.allowed_actions.map lowStr).contains action then "yes (err:action)"
    else if ¬ (cfg.allowed_symbols.map upStr).contains symbol then "yes (err:symbol)"
    else "no"

/-- The body of the `process_signals` loop for one loaded signal: freshness
check, strategy lookup, validation, sizing, and assembly of the enriched row.
`senv` supplies the venue state `calculate_lotsize` would observe for a given
(strategy, symbol). -/
def enrich_row (config : Config) (senv : String → String → SizeEnv) (now : ℚ)
    (sig : ARow) : ERow :=
  let ts := sig.timestamp.getD 0
  let slm : String × Option ℚ × String :=
    if ¬ is_recent now ts then ("yes (1min+)", none, "")
    else
      match findStrategy config sig.strategy with
      | none => ("yes (err:strategy)", none, "")
      | some cfg =>
        let status := validate_signal sig cfg
        if status = "no" then
          (status,
           some (calculate_lotsize cfg.lot_size (senv sig.strategy sig.symbol) sig.symbol),
           cfg.tpsl_mode)
        else (status, none, "")
  { timestamp := ts
    symbol := upStr sig.symbol
    action := lowStr sig.action
    timeframe := sig.timeframe
    strategy := sig.strategy
    executed := slm.1
    lot_size :=
      match slm.2.1 with
      | some l => if l = 0 then none else some (round2 l)
      | none => none
    tpsl_mode := slm.2.2
    trade_done := "no"
    tpsl_done := "no"
    ticket := none
    execution_price := none
    executed_at := none
    processed_at := now }

/-- Model of `process_signals` of `trade_parser.py`: `None` when no loaded signal
remains, else one enriched row per loaded signal. -/
def process_signals (config : Config) (senv : String → String → SizeEnv) (now : ℚ)
    (alerts : List ARow) : Option (List ERow) :=
  let signals := load_signals alerts
  if signals.isEmpty then none
  else some (signals.map (enrich_row config senv now))

/-- The dedup key of the enriched store: `(timestamp, symbol, strategy)`. -/
def keyOf (r : ERow) : ℚ × String × String := (r.timestamp, r.symbol, r.strategy)

/-- Model of `drop_duplicates(subset=key, keep="last")`: keep a row iff no later row
shares its key. -/
def dedupKeepLast : List ERow → List ERow
  | [] => []
  | r :: rs =>
    if rs.any (fun s => decide (keyOf s = keyOf r)) then dedupKeepLast rs
    else r :: dedupKeepLast rs

/-- Model of `original.loc[original["executed"] == "no", "executed"] = "yes"` applied to
one row. -/
def markConsumed (r : ARow) : ARow :=
  if r.executed = "no" then { r with executed := "yes" } else r

/-- The two per-day stores the enrichment pass reads and writes. -/
structure Store where
  alerts : List ARow
  enriched : List ERow
deriving DecidableEq, Repr

/-- Model of `save_and_mark_processed`: a `None` or empty frame changes nothing;
otherwise append the new rows, dedup-merge keeping the last occurrence of each
key, and mark every still-unconsumed alert row consumed. -/
def save_and_mark_processed (st : Store) (newRows : Option (List ERow)) : Store :=
  match newRows with
  | none => st
  | some rows =>
    if rows.isEmpty then st
    else
      { alerts := st.alerts.map markConsumed
        enriched := dedupKeepLast (st.enriched ++ rows) }

/-- One full enrichment pass: load, process, save and mark. -/
def enrichment_pass (config : Config) (senv : String → String → SizeEnv) (now : ℚ)
    (st : Store) : Store :=
  save_and_mark_processed st (process_signals config senv now st.alerts)

/-- The row update of the executor `process_signals` for one signal, given
the (truthiness-tested) return of `execute_trade`: stamp `trade_done`,
`executed` and `executed_at`, and stamp `ticket` / `execution_price` only when
the order number of the result is nonzero. -/
def apply_result (row : ERow) (res : Option PyResult) (now : ℚ) : ERow :=
  match res with
  | none => row
  | some r =>
    let row' := { row with trade_done := "yes", executed := "yes", executed_at := some now }
    if r.order ≠ 0 then { row' with ticket := some r.order, execution_price := some r.price }
    else row'

/-- An opposite position for which no close can be attempted: the venue has no
tick data for its symbol, so the close loop `continue`s past it. -/
def noTickOpp : VPos :=
  { ticket := 9, ptype := .sell, volume := 1, magic := MAGIC_NUMBER,
    tick := none, closeRet := none }

/-- A reversal-handling configuration in `close` mode. -/
def closeCfg : ReverseCfg := { mode := "close", magic_restriction := true }

/-- Venue state for the C5 counterexample: one opposite position with no tick
data, and a venue that accepts the new buy immediately in FOK mode. -/
def revEnv : ExecEnv :=
  { configOk := true, terminalPathOk := true, initOk := true, symbolOk := true,
    positions := [noTickOpp], tick := some (3/2, 3/2),
    fok := some (TRADE_RETCODE_DONE, 777, 3/2), ioc := none, ret := none }

/-- C5 witness (for the amended theorem): a concrete attempted-close failure. -/
def failCloseOpp : VPos :=
  { ticket := 11, ptype := .sell, volume := 1, magic := MAGIC_NUMBER,
    tick := some (3/2, 3/2), closeRet := some 10013 }

/-- Venue state whose single opposite position fails to close. -/
def failCloseEnv : ExecEnv :=
  { configOk := true, terminalPathOk := true, initOk := true, symbolOk := true,
    positions := [failCloseOpp], tick := some (3/2, 3/2),
    fok := some (TRADE_RETCODE_DONE, 778, 3/2), ioc := none, ret := none }

/-- An opposite position that closes successfully. -/
def oppOk : VPos :=
  { ticket := 10, ptype := .sell, volume := 1, magic := MAGIC_NUMBER,
    tick := some (3/2, 3/2), closeRet := some TRADE_RETCODE_DONE }

/-- A reversal-handling configuration in `netting` mode. -/
def netCfg : ReverseCfg := { mode := "netting", magic_restriction := true }

/-- Venue state for the C10 witness: one opposite position that closes. -/
def netEnv : ExecEnv :=
  { configOk := true, terminalPathOk := true, initOk := true, symbolOk := true,
    positions := [oppOk], tick := some (3/2, 3/2),
    fok := none, ioc := none, ret := none }

/-- A pending enriched row awaiting execution. -/
def sampleRow : ERow :=
  { timestamp := 0, symbol := "EURUSD", action := "buy", timeframe := "5",
    strategy := "strategyA", executed := "no", lot_size := some (1/10),
    tpsl_mode := "", trade_done := "no", tpsl_done := "no", ticket := none,
    execution_price := none, executed_at := none, processed_at := 0 }

/-- A valid, fresh, policy-conforming alert for the concrete store. -/
def goodAlert : ARow :=
  { timestamp := some 10, symbol := "EURUSD", action := "buy", timeframe := "5",
    strategy := "sA", executed := "no" }

/-- One enabled strategy allowing buy on EURUSD with a fixed 0.10 lot. -/
def config0 : Config :=
  { strategies := [("sA",
      { enabled := true, allowed_actions := ["buy"], allowed_symbols := ["EURUSD"],
        lot_size := { mode := .fixed, value := 1/10 }, tpsl_mode := "fixed_pips" })] }

/-- A constant venue view for the concrete enrichment runs. -/
def senv0 : String → String → SizeEnv :=
  fun _ _ => { balance := some 1000, symbolOk := true, tick := some { ask := 1, last := 0 } }

/-- C9 (counterexample): an alert row whose timestamp fails to parse is NOT
always marked consumed.  When it is the only row, `load_signals` filters it
out, `process_signals` returns `None`, and `save_and_mark_processed` exits
before touching the alert store: the row keeps `executed = "no"`. -/
def badRow : ARow :=
  { timestamp := none, symbol := "EURUSD", action := "buy", timeframe := "5",
    strategy := "sA", executed := "no" }

/-! The theorems: helper lemmas first, then the claim theorems, their
counterexamples and their witnesses. -/

theorem upStr_XAUUSD : upStr "XAUUSD" = "XAUUSD" := by decide

theorem isMetalSym_XAUUSD : isMetalSym "XAUUSD" = true := by decide

theorem isCryptoSym_XAUUSD : isCryptoSym "XAUUSD" = false := by decide

theorem min_lot_XAUUSD : min_lot "XAUUSD" = 1/100 := by
  rw [min_lot, isCryptoSym_XAUUSD]; norm_num

theorem upStr_BTCUSD : upStr "BTCUSD" = "BTCUSD" := by decide

theorem isCryptoSym_BTCUSD : isCryptoSym "BTCUSD" = true := by decide

theorem min_lot_BTCUSD : min_lot "BTCUSD" = 1/100000 := by
  rw [min_lot, isCryptoSym_BTCUSD]; norm_num

theorem isMetalSym_EURUSD : isMetalSym "EURUSD" = false := by decide

theorem isCryptoSym_EURUSD : isCryptoSym "EURUSD" = false := by decide

/-- C1: the percent-of-balance formula on balance=10000, leverage=500,
riskPercent=1, price=2000, contractMultiplier=100 evaluates to 0.25, not to
the 2.50 the spec asserts: (10000 × 500 × 0.01) / (2000 × 100) = 1/4. -/
theorem sizing_example_not_two_point_five :
    calculate_lotsize { mode := .percent, value := 1 } sizingExampleEnv "XAUUSD" = 1/4
      ∧ (1/4 : ℚ) ≠ 5/2 := by
  refine ⟨?_, by norm_num⟩
  norm_num [calculate_lotsize, sizingExampleEnv, upStr_XAUUSD, price_of, contract_of,
    isMetalSym_XAUUSD, isCryptoSym_XAUUSD, min_lot_XAUUSD, round2, roundTo, rndHalfEven,
    LEVERAGE, min_def, max_def]

/-- C1 (amended): on the inputs of the spec the implemented computation — the formula
(balance × leverage × riskPercent/100) / (price × contractMultiplier), rounded
to 2 decimals and clamped to [instrumentMinLot, 100] — returns 0.25, and this
agrees with the claimed formula evaluated at those numbers. -/
theorem sizing_example_evaluates_to_quarter :
    calculate_lotsize { mode := .percent, value := 1 } sizingExampleEnv "XAUUSD"
        = max (min (round2 ((10000 * 500 * (1/100)) / (2000 * 100))) 100) (min_lot "XAUUSD") := by
  norm_num [calculate_lotsize, sizingExampleEnv, upStr_XAUUSD, price_of, contract_of,
    isMetalSym_XAUUSD, isCryptoSym_XAUUSD, min_lot_XAUUSD, round2, roundTo, rndHalfEven,
    LEVERAGE, min_def, max_def]

/-- Model of `math.isclose` is true whenever the difference is within the absolute
tolerance alone. -/
theorem isclose_of_abs_le {a b t : ℚ} (h : |a - b| ≤ t) : isclose a b t = true := by
  simp only [isclose, decide_eq_true_eq]
  exact le_trans h (le_max_right _ _)

/-- Absolute value as a conditional, used to evaluate the concrete scenarios. -/
theorem abs_ite (a : ℚ) : |a| = if 0 ≤ a then a else -a := by
  rcases le_or_lt 0 a with h | h
  · rw [abs_of_nonneg h, if_pos h]
  · rw [abs_of_neg h, if_neg (not_le.mpr h)]

/-- Any modification issued by the tail of `manage_position` exceeds the
5-tick tolerance on at least one of the two levels. -/
theorem finishTargets_submit (pos : MPos) (point : ℚ) (digits : ℕ) (a b sl tp : ℚ)
    (h : finishTargets pos point digits a b = .submit sl tp) :
    ¬ (|sl - pos.sl| ≤ point * 5 ∧ |tp - pos.tp| ≤ point * 5) := by
  rintro ⟨h1, h2⟩
  simp only [finishTargets] at h
  split at h
  · exact ManageResult.noConfusion h
  · rename_i hcond
    injection h with e1 e2
    apply hcond
    rw [Bool.and_eq_true]
    refine ⟨isclose_of_abs_le ?_, isclose_of_abs_le ?_⟩
    · rw [e1]; exact h1
    · rw [e2]; exact h2

/-- The simp set used to evaluate `manage_position` on concrete inputs. -/
theorem pip_value_EURUSD :
    get_pip_value true "EURUSD" (1/100000) = some (1/10000) := by
  rw [get_pip_value]
  rw [isMetalSym_EURUSD, isCryptoSym_EURUSD]
  norm_num

theorem pip_value_EURUSD4 :
    get_pip_value true "EURUSD" (1/10000) = some (1/1000) := by
  rw [get_pip_value]
  rw [isMetalSym_EURUSD, isCryptoSym_EURUSD]
  norm_num

theorem pip_value_XAUUSD :
    get_pip_value true "XAUUSD" (1/100) = some (1/100) := by
  rw [get_pip_value]
  rw [isMetalSym_XAUUSD]
  norm_num

/-- C2 (counterexample): `manage_position` keeps no modification cooldown.  The
same XAUUSD position, modified at t=600s (trailing active locks SL at 2000.05),
is resubmitted at t=620s — 20s later, well inside the claimed 60s window —
because the bid retraced below the activation threshold and the statelessly
recomputed SL reverted to the fixed 1999.8. -/
theorem cooldown_not_enforced :
    manage_position trailingCfg xauPos xauEnv1 = .submit (40001/20) (10002/5)
      ∧ manage_position trailingCfg (afterAccept xauPos (40001/20) (10002/5)) xauEnv2
          = .submit (9999/5) (10002/5)
      ∧ xauEnv2.now - xauEnv1.now < 60 := by
  refine ⟨?_, ?_, by norm_num [xauEnv1, xauEnv2]⟩
  · norm_num [manage_position, trailingCfg, xauPos, xauEnv1, pip_value_XAUUSD,
      fixedPipsSL, fixedPipsTP, finishTargets, isclose, roundTo, rndHalfEven,
      min_def, max_def, abs_ite]
  · norm_num [manage_position, trailingCfg, xauPos, xauEnv2, afterAccept, pip_value_XAUUSD,
      fixedPipsSL, fixedPipsTP, finishTargets, isclose, roundTo, rndHalfEven,
      min_def, max_def, abs_ite]

/-- C2 (amended): the only age gate in `manage_position` skips a position while
it is younger than 60 seconds (in particular while younger than 30 seconds);
no cooldown state exists beyond this gate. -/
theorem young_position_skipped (cfg : TpslCfg) (pos : MPos) (env : MEnv)
    (h : env.now - pos.time < 60) :
    manage_position cfg pos env = .skippedNew := by
  unfold manage_position
  rw [if_pos]
  rw [div_lt_one (by norm_num : (0:ℚ) < 60)]
  exact h

/-- C2 witness: a 30-second-old position is skipped. -/
theorem young_position_skipped_witness :
    xauEnv1.now - 570 < 60
      ∧ manage_position trailingCfg { xauPos with time := 570 } { xauEnv1 with now := 600 }
          = .skippedNew :=
  ⟨by norm_num [xauEnv1], young_position_skipped _ _ _ (by norm_num [xauPos, xauEnv1])⟩

/-- C3 (counterexample): trailing is not monotone across passes.  At t=600s the
EURUSD long has 15 pips of profit (≥ activate_at = 10), so the computed SL is
1.0005; at t=620s the bid has retraced to 5 pips of profit and the recomputed
SL falls back to the fixed 0.998 < 1.0005 — and is submitted, loosening the
stop. -/
theorem trailing_not_monotone :
    manage_position trailingCfg eurPos eurEnv1 = .submit (2001/2000) (251/250)
      ∧ manage_position trailingCfg (afterAccept eurPos (2001/2000) (251/250)) eurEnv2
          = .submit (499/500) (251/250)
      ∧ (10 : ℚ) ≤ ((2003/2000) - 1) / (1/10000)
      ∧ (499/500 : ℚ) < 2001/2000 := by
  refine ⟨?_, ?_, by norm_num, by norm_num⟩
  · norm_num [manage_position, trailingCfg, eurPos, eurEnv1, pip_value_EURUSD,
      fixedPipsSL, fixedPipsTP, finishTargets, isclose, roundTo, rndHalfEven,
      min_def, max_def, abs_ite]
  · norm_num [manage_position, trailingCfg, eurPos, eurEnv2, afterAccept, pip_value_EURUSD,
      fixedPipsSL, fixedPipsTP, finishTargets, isclose, roundTo, rndHalfEven,
      min_def, max_def, abs_ite]

/-- C3 (amended): while the trailing overlay stays activated the computed SL is
monotone.  For a long position, in any two passes whose profit both reach
`activate_at` the computed stop-loss of the later pass is never below that of
the earlier pass (they coincide, since the locked stop does not depend on the
current price); symmetrically for a short position it is never above. -/
theorem trailing_monotone_while_active (cfg : TpslCfg) (tr : Trailing)
    (entry pip p1 p2 q1 q2 : ℚ) (hcfg : cfg.trailing = some tr)
    (hb1 : tr.activate_at ≤ (p1 - entry) / pip) (hb2 : tr.activate_at ≤ (p2 - entry) / pip)
    (hs1 : tr.activate_at ≤ (entry - q1) / pip) (hs2 : tr.activate_at ≤ (entry - q2) / pip) :
    fixedPipsSL cfg .buy entry p1 pip ≤ fixedPipsSL cfg .buy entry p2 pip
      ∧ fixedPipsSL cfg .sell entry q2 pip ≤ fixedPipsSL cfg .sell entry q1 pip := by
  simp only [fixedPipsSL, hcfg]
  rw [if_pos hb1, if_pos hb2, if_pos hs1, if_pos hs2]
  exact ⟨le_refl _, le_refl _⟩

/-- C3 witness: concrete activated passes on both sides. -/
theorem trailing_monotone_while_active_witness :
    (10 : ℚ) ≤ ((2003/2000) - 1) / (1/10000)
      ∧ (fixedPipsSL trailingCfg .buy 1 (2003/2000) (1/10000)
            ≤ fixedPipsSL trailingCfg .buy 1 (2003/2000) (1/10000)
          ∧ fixedPipsSL trailingCfg .sell 1 (1997/2000) (1/10000)
            ≤ fixedPipsSL trailingCfg .sell 1 (1997/2000) (1/10000)) :=
  ⟨by norm_num,
   trailing_monotone_while_active trailingCfg { activate_at := 10, lock_pips := 5 }
     1 (1/10000) (2003/2000) (2003/2000) (1997/2000) (1997/2000) rfl
     (by norm_num) (by norm_num) (by norm_num) (by norm_num)⟩

/-- Evaluation of the concrete percentage-balance scenario: the risk manager
submits SL=0.99 and TP=1.02. -/
theorem pct_submit_eval :
    manage_position pctCfg pctPos pctEnv = .submit (99/100) (51/50) := by
  norm_num [manage_position, pctCfg, pctPos, pctEnv, pip_value_EURUSD4,
    finishTargets, isclose, roundTo, rndHalfEven, min_def, max_def, abs_ite]
  intro hcontra
  exact absurd hcontra (by decide)

/-- C4 (counterexample): the percentage-balance branch has no breakeven
overlay.  With balance 10000, sl 1%, tp 2%, the computed levels are SL=0.99 and
TP=1.02; the bid 1.018 is 90% of the way to the TP target (beyond any breakeven
fraction ≤ 0.9, e.g. ½), yet the submitted SL is 0.99, not the entry 1. -/
theorem breakeven_not_applied :
    manage_position pctCfg pctPos pctEnv = .submit (99/100) (51/50)
      ∧ ((509/500 : ℚ) - 1) ≥ (1/2) * ((51/50) - 1)
      ∧ (99/100 : ℚ) ≠ 1 := by
  exact ⟨pct_submit_eval, by norm_num, by norm_num⟩

/-- C4 (amended): under the percentage-balance mode the computed protective
levels do not depend on the current price at all — two passes that differ only
in the tick produce identical outcomes, so no price-progress-triggered
breakeven adjustment exists. -/
theorem percent_balance_ignores_price (cfg : TpslCfg) (pos : MPos) (env : MEnv)
    (t1 t2 : ℚ × ℚ) (hm : cfg.mode = "percentage_balance") :
    manage_position cfg pos { env with tick := some t1 }
      = manage_position cfg pos { env with tick := some t2 } := by
  have h1 : ¬ ("percentage_balance" = "fixed_pips") := by decide
  simp only [manage_position, hm, if_neg h1, eq_self_iff_true, if_true]

/-- C4 witness: two different ticks, same outcome, on the concrete
percentage-balance scenario. -/
theorem percent_balance_ignores_price_witness :
    manage_position pctCfg pctPos { pctEnv with tick := some (509/500, 51/50) }
      = manage_position pctCfg pctPos { pctEnv with tick := some (1, 1) } :=
  percent_balance_ignores_price pctCfg pctPos pctEnv (509/500, 51/50) (1, 1) rfl

/-- C8: no-op suppression.  Whenever `manage_position` issues a modification,
at least one of the two rounded target levels differs from the position's
current level by more than 5 ticks; contrapositively, if both deltas are within
5 ticks no modification request is issued. -/
theorem noop_suppression_five_ticks (cfg : TpslCfg) (pos : MPos) (env : MEnv)
    (sl tp : ℚ) (h : manage_position cfg pos env = .submit sl tp) :
    ¬ (|sl - pos.sl| ≤ env.point * 5 ∧ |tp - pos.tp| ≤ env.point * 5) := by
  simp only [manage_position] at h
  repeat' split at h
  all_goals
    first
      | exact ManageResult.noConfusion h
      | exact finishTargets_submit _ _ _ _ _ _ _ h

/-- C8 witness: the concrete percentage-balance submission exceeds the
tolerance. -/
theorem noop_suppression_five_ticks_witness :
    ¬ (|(99/100 : ℚ) - pctPos.sl| ≤ pctEnv.point * 5
        ∧ |(51/50 : ℚ) - pctPos.tp| ≤ pctEnv.point * 5) :=
  noop_suppression_five_ticks pctCfg pctPos pctEnv (99/100) (51/50) pct_submit_eval

/-- If some member of the close list had tick data but its close did not come
back `TRADE_RETCODE_DONE`, the close loop either raised or recorded a failing
retcode. -/
theorem close_results_bad {ps : List VPos} {p : VPos} (hp : p ∈ ps) (ht : p.tick.isSome)
    (hf : p.closeRet ≠ some TRADE_RETCODE_DONE) :
    close_results ps = none
      ∨ ∃ rs rc, close_results ps = some rs ∧ rc ∈ rs ∧ rc ≠ TRADE_RETCODE_DONE := by
  induction ps with
  | nil => cases hp
  | cons q qs ih =>
    rcases List.mem_cons.mp hp with rfl | hmem
    · obtain ⟨t, ht'⟩ := Option.isSome_iff_exists.mp ht
      cases hcr : p.closeRet with
      | none => left; simp [close_results, ht', hcr]
      | some rc =>
        have hrc : rc ≠ TRADE_RETCODE_DONE := by
          intro hcontra; exact hf (by rw [hcr, hcontra])
        cases hrec : close_results qs with
        | none => left; simp [close_results, ht', hcr, hrec]
        | some rs =>
          right
          exact ⟨rc :: rs, rc, by simp [close_results, ht', hcr, hrec],
            List.mem_cons_self _ _, hrc⟩
    · cases hqt : q.tick with
      | none =>
        simp only [close_results, hqt]
        exact ih hmem
      | some t =>
        cases hqr : q.closeRet with
        | none => left; simp [close_results, hqt, hqr]
        | some rc0 =>
          rcases ih hmem with hnone | ⟨rs, rc, heq, hmemrc, hne⟩
          · left; simp [close_results, hqt, hqr, hnone]
          · right
            exact ⟨rc0 :: rs, rc, by simp [close_results, hqt, hqr, heq],
              List.mem_cons_of_mem _ hmemrc, hne⟩

/-- Model of `close_positions` returns `False` whenever some member with tick data did
not close successfully. -/
theorem close_positions_false {ps : List VPos} {p : VPos} (hp : p ∈ ps)
    (ht : p.tick.isSome) (hf : p.closeRet ≠ some TRADE_RETCODE_DONE)
    (tOk iOk : Bool) :
    close_positions tOk iOk ps = false := by
  have hne : ps.isEmpty = false := by
    cases ps with
    | nil => cases hp
    | cons a as => rfl
  unfold close_positions
  rw [hne]
  cases tOk with
  | false => simp
  | true =>
    cases iOk with
    | false => simp
    | true =>
      rcases close_results_bad hp ht hf with hnone | ⟨rs, rc, heq, hmemrc, hrc⟩
      · simp [hnone]
      · have hall : rs.all (fun r => r == TRADE_RETCODE_DONE) = false := by
          rw [List.all_eq_false]
          exact ⟨rc, hmemrc, by simp [hrc]⟩
        simp [heq, hall]

/-- C5 (amended): if reversal handling is on and some opposite-direction
position was actually attempted to close (it had tick data) but did not close
successfully, `execute_trade` aborts before submitting any new order.
Opposite positions skipped for lack of tick data do not count as failures. -/
theorem close_failure_suppresses_new_leg (env : ExecEnv) (rcfg : ReverseCfg)
    (action : String) (p : VPos)
    (hmode : rcfg.mode ≠ "off")
    (hc : env.configOk = true) (hterm : env.terminalPathOk = true)
    (hinit : env.initOk = true) (hsym : env.symbolOk = true)
    (hp : p ∈ opposite_of action (get_open_positions env.positions rcfg.magic_restriction))
    (ht : p.tick.isSome) (hf : p.closeRet ≠ some TRADE_RETCODE_DONE) :
    execute_trade env rcfg action = .closeFailed := by
  have hopp : (opposite_of action (get_open_positions env.positions rcfg.magic_restriction)).isEmpty = false := by
    cases hcase : opposite_of action (get_open_positions env.positions rcfg.magic_restriction) with
    | nil => rw [hcase] at hp; cases hp
    | cons a as => rfl
  have hcl : close_positions env.terminalPathOk env.initOk
      (opposite_of action (get_open_positions env.positions rcfg.magic_restriction)) = false :=
    close_positions_false hp ht hf _ _
  rw [hterm, hinit] at hcl
  simp [execute_trade, hc, hterm, hinit, hsym, hmode, hopp, hcl]

/-- C5 (counterexample): an opposite position for which no close could even be
attempted (no tick data) does not block the new leg.  `close_positions` skips
it, `all([])` is vacuously true, and the new buy order is submitted and filled. -/
theorem unattempted_close_opens_new_leg :
    opposite_of "buy" (get_open_positions revEnv.positions closeCfg.magic_restriction)
        = [noTickOpp]
      ∧ noTickOpp.tick = none
      ∧ execute_trade revEnv closeCfg "buy" = .opened 777 (3/2) := by
  refine ⟨rfl, rfl, rfl⟩

/-- C5 witness: the attempted close fails with retcode 10013 and the new leg
is suppressed. -/
theorem close_failure_suppresses_new_leg_witness :
    closeCfg.mode ≠ "off"
      ∧ failCloseOpp ∈ opposite_of "buy"
          (get_open_positions failCloseEnv.positions closeCfg.magic_restriction)
      ∧ execute_trade failCloseEnv closeCfg "buy" = .closeFailed :=
  ⟨by decide,
   by exact List.mem_cons_self _ _,
   close_failure_suppresses_new_leg failCloseEnv closeCfg "buy" failCloseOpp
     (by decide) rfl rfl rfl rfl (by exact List.mem_cons_self _ _) rfl (by decide)⟩

/-- C10: in netting mode, when an opposite position existed and every close
succeeded, `execute_trade` returns the synthetic netting result (order 0), and
the executor row update stamps `trade_done`, `executed` and `executed_at`
while leaving `ticket` and `execution_price` untouched. -/
theorem netting_row_update (env : ExecEnv) (rcfg : ReverseCfg) (action : String)
    (row : ERow) (now : ℚ)
    (hmode : rcfg.mode = "netting")
    (hc : env.configOk = true) (hterm : env.terminalPathOk = true)
    (hinit : env.initOk = true) (hsym : env.symbolOk = true)
    (hopp : (opposite_of action (get_open_positions env.positions rcfg.magic_restriction)).isEmpty = false)
    (hclose : close_positions env.terminalPathOk env.initOk
        (opposite_of action (get_open_positions env.positions rcfg.magic_restriction)) = true) :
    execute_trade env rcfg action = .nettingDone
      ∧ apply_result row (resultOf (execute_trade env rcfg action)) now
          = { row with trade_done := "yes", executed := "yes", executed_at := some now } := by
  have hmode' : rcfg.mode ≠ "off" := by rw [hmode]; decide
  rw [hterm, hinit] at hclose
  have he : execute_trade env rcfg action = .nettingDone := by
    simp [execute_trade, hc, hterm, hinit, hsym, hmode', hopp, hclose, hmode]
  refine ⟨he, ?_⟩
  rw [he]
  simp [resultOf, apply_result]

/-- C10 witness: concrete netting execution and row update. -/
theorem netting_row_update_witness :
    execute_trade netEnv netCfg "buy" = .nettingDone
      ∧ apply_result sampleRow (resultOf (execute_trade netEnv netCfg "buy")) 5
          = { sampleRow with trade_done := "yes", executed := "yes", executed_at := some 5 } :=
  netting_row_update netEnv netCfg "buy" sampleRow 5 rfl rfl rfl rfl rfl rfl rfl

/-- A marked alert row is never the literal `"no"` again. -/
theorem markConsumed_executed_ne (r : ARow) : (markConsumed r).executed ≠ "no" := by
  unfold markConsumed
  split
  · simp
  · rename_i h; exact h

/-- After marking, `load_signals` finds nothing. -/
theorem load_signals_marked (alerts : List ARow) :
    load_signals (alerts.map markConsumed) = [] := by
  unfold load_signals
  rw [List.filter_eq_nil_iff]
  intro a ha
  obtain ⟨b, _, rfl⟩ := List.mem_map.mp ha
  simp only [Bool.and_eq_true, beq_iff_eq, not_and]
  intro _ h2
  exact markConsumed_executed_ne b h2

/-- Membership in the dedup result implies membership in the input. -/
theorem mem_of_mem_dedupKeepLast {a : ERow} {l : List ERow}
    (h : a ∈ dedupKeepLast l) : a ∈ l := by
  induction l with
  | nil => cases h
  | cons r rs ih =>
    unfold dedupKeepLast at h
    split at h
    · exact List.mem_cons_of_mem _ (ih h)
    · rcases List.mem_cons.mp h with rfl | h'
      · exact List.mem_cons_self _ _
      · exact List.mem_cons_of_mem _ (ih h')

/-- The dedup-merge leaves pairwise-distinct keys. -/
theorem dedupKeepLast_pairwise (l : List ERow) :
    (dedupKeepLast l).Pairwise (fun a b => keyOf a ≠ keyOf b) := by
  induction l with
  | nil => exact List.Pairwise.nil
  | cons r rs ih =>
    unfold dedupKeepLast
    split
    · exact ih
    · rename_i hna
      refine List.Pairwise.cons ?_ ih
      intro b hb heq
      apply hna
      rw [List.any_eq_true]
      exact ⟨b, mem_of_mem_dedupKeepLast hb, by rw [decide_eq_true_eq]; exact heq.symm⟩

/-- C6: enrichment is idempotent over an unchanged alert set.  When a pass has
signals to process: running it again (at any later time) changes nothing; the
resulting enriched store holds exactly one row per (timestamp, symbol,
strategy) key; every still-unconsumed alert is marked consumed by the first
pass; and marking an already-consumed record is the identity. -/
theorem enrichment_idempotent (config : Config) (senv : String → String → SizeEnv)
    (now now' : ℚ) (alerts : List ARow) (E : List ERow)
    (h : load_signals alerts ≠ []) :
    enrichment_pass config senv now' (enrichment_pass config senv now ⟨alerts, E⟩)
        = enrichment_pass config senv now ⟨alerts, E⟩
      ∧ (enrichment_pass config senv now ⟨alerts, E⟩).enriched.Pairwise
          (fun a b => keyOf a ≠ keyOf b)
      ∧ (enrichment_pass config senv now ⟨alerts, E⟩).alerts = alerts.map markConsumed
      ∧ ∀ r ∈ alerts, r.executed ≠ "no" → markConsumed r = r := by
  have h1 : enrichment_pass config senv now ⟨alerts, E⟩
      = { alerts := alerts.map markConsumed,
          enriched := dedupKeepLast (E ++ (load_signals alerts).map (enrich_row config senv now)) } := by
    cases hl : load_signals alerts with
    | nil => exact absurd hl h
    | cons a as =>
      simp [enrichment_pass, process_signals, save_and_mark_processed, hl]
  refine ⟨?_, ?_, ?_, ?_⟩
  · rw [h1]
    have h2 : load_signals (alerts.map markConsumed) = [] := load_signals_marked alerts
    simp [enrichment_pass, process_signals, save_and_mark_processed, h2]
  · rw [h1]
    exact dedupKeepLast_pairwise _
  · rw [h1]
  · intro r _ hne'
    unfold markConsumed
    rw [if_neg hne']

/-- C6 witness: the double pass over one good alert. -/
theorem enrichment_idempotent_witness :
    load_signals [goodAlert] ≠ []
      ∧ (enrichment_pass config0 senv0 40 (enrichment_pass config0 senv0 20 ⟨[goodAlert], []⟩)
            = enrichment_pass config0 senv0 20 ⟨[goodAlert], []⟩
          ∧ (enrichment_pass config0 senv0 20 ⟨[goodAlert], []⟩).enriched.Pairwise
              (fun a b => keyOf a ≠ keyOf b)
          ∧ (enrichment_pass config0 senv0 20 ⟨[goodAlert], []⟩).alerts
              = [goodAlert].map markConsumed
          ∧ ∀ r ∈ [goodAlert], r.executed ≠ "no" → markConsumed r = r) :=
  ⟨by simp [load_signals, goodAlert],
   enrichment_idempotent config0 senv0 20 40 [goodAlert] []
     (by simp [load_signals, goodAlert])⟩

/-- C9 (counterexample): the lone unparseable row is left unmarked. -/
theorem lone_bad_timestamp_not_marked :
    enrichment_pass config0 senv0 20 ⟨[badRow], []⟩ = ⟨[badRow], []⟩
      ∧ badRow.executed = "no" := by
  constructor
  · simp [enrichment_pass, process_signals, save_and_mark_processed, load_signals, badRow]
  · rfl

/-- C9 (amended): whenever the same pass loads at least one parseable
unconsumed alert, an unparseable unconsumed row contributes nothing to the
enriched store (the pass output is the same with or without it) and is
nevertheless marked consumed. -/
theorem bad_timestamp_dropped (config : Config) (senv : String → String → SizeEnv)
    (now : ℚ) (A : List ARow) (E : List ERow) (b : ARow)
    (hb1 : b.timestamp = none) (hb2 : b.executed = "no")
    (h : load_signals A ≠ []) :
    (enrichment_pass config senv now ⟨A ++ [b], E⟩).enriched
        = (enrichment_pass config senv now ⟨A, E⟩).enriched
      ∧ (enrichment_pass config senv now ⟨A ++ [b], E⟩).alerts
        = A.map markConsumed ++ [{ b with executed := "yes" }] := by
  have hload : load_signals (A ++ [b]) = load_signals A := by
    unfold load_signals
    rw [List.filter_append]
    simp [hb1]
  have hmark : markConsumed b = { b with executed := "yes" } := by
    unfold markConsumed
    rw [if_pos hb2]
  cases hl : load_signals A with
  | nil => exact absurd hl h
  | cons a as =>
    constructor
    · simp [enrichment_pass, process_signals, save_and_mark_processed, hload, hl]
    · simp [enrichment_pass, process_signals, save_and_mark_processed, hload, hl, hmark]

/-- C9 witness: the bad row rides along with one good alert and gets marked
while producing no enriched row. -/
theorem bad_timestamp_dropped_witness :
    badRow.timestamp = none ∧ badRow.executed = "no" ∧ load_signals [goodAlert] ≠ []
      ∧ ((enrichment_pass config0 senv0 20 ⟨[goodAlert] ++ [badRow], []⟩).enriched
            = (enrichment_pass config0 senv0 20 ⟨[goodAlert], []⟩).enriched
          ∧ (enrichment_pass config0 senv0 20 ⟨[goodAlert] ++ [badRow], []⟩).alerts
            = [goodAlert].map markConsumed ++ [{ badRow with executed := "yes" }]) :=
  ⟨rfl, rfl, by simp [load_signals, goodAlert],
   bad_timestamp_dropped config0 senv0 20 [goodAlert] [] badRow rfl rfl
     (by simp [load_signals, goodAlert])⟩

/-- C7 (counterexample): the fault fallback is the constant 0.01, not the
instrument minimum lot.  For a crypto symbol the instrument minimum is
0.00001, yet a sizing fault (unavailable balance) returns 0.01. -/
theorem fault_fallback_not_min_lot :
    calculate_lotsize { mode := .percent, value := 1 }
        { balance := none, symbolOk := true, tick := none } "BTCUSD" = 1/100
      ∧ min_lot "BTCUSD" = 1/100000
      ∧ (1/100 : ℚ) ≠ 1/100000 := by
  refine ⟨rfl, min_lot_BTCUSD, by norm_num⟩

/-- C7 (amended): every fault path of the percent-of-balance sizing
computation — unavailable balance, unselectable symbol, missing tick, or a
division by zero — returns the fixed fallback 0.01 instead of raising; no
fault ever escapes the computation. -/
theorem sizing_fault_returns_fixed_fallback (cfg : LotCfg) (env : SizeEnv)
    (symbol : String) (hmode : cfg.mode = .percent)
    (hfault : env.balance = none ∨ env.symbolOk = false ∨ env.tick = none
      ∨ ∃ t, env.tick = some t
          ∧ price_of (upStr symbol) t * contract_of (upStr symbol) = 0) :
    calculate_lotsize cfg env symbol = 1/100 := by
  rcases hfault with hb | hs | ht | ⟨t, ht, hz⟩
  · simp [calculate_lotsize, hmode, hb]
  · cases hbal : env.balance with
    | none => simp [calculate_lotsize, hmode, hbal]
    | some b => simp [calculate_lotsize, hmode, hbal, hs]
  · cases hbal : env.balance with
    | none => simp [calculate_lotsize, hmode, hbal]
    | some b => simp [calculate_lotsize, hmode, hbal, ht]
  · cases hbal : env.balance with
    | none => simp [calculate_lotsize, hmode, hbal]
    | some b => simp [calculate_lotsize, hmode, hbal, ht, hz]

/-- C7 witness: an unavailable balance on a forex symbol yields 0.01. -/
theorem sizing_fault_returns_fixed_fallback_witness :
    ({ balance := none, symbolOk := true, tick := none } : SizeEnv).balance = none
      ∧ calculate_lotsize { mode := .percent, value := 1 }
          { balance := none, symbolOk := true, tick := none } "EURUSD" = 1/100 :=
  ⟨rfl, sizing_fault_returns_fixed_fallback _ _ _ rfl (Or.inl rfl)⟩

end TradeBridge

